import Mathlib

/-
Verification of the rfpsonar-salesforce scraping pipeline.

Shallow embedding of the Python sources:
  scrapers/base_scraper.py, scrapers/kentucky.py, scrapers/virginia.py,
  scrapers/pennsylvania.py, scrapers/massachusetts.py, scrapers/puerto_rico.py,
  app.py, rfp-sonar/scrapers/salesforce_auth.py.

Pure computations (field mapping, date parsing, deduplication, row
processing, token-cache policy, the batch loop) are translated into
executable Lean functions.  External effects (HTTP responses, extracted
table rows) become explicit input data.  Python exceptions are modelled
with Except; Python name/attribute resolution against a class or module
namespace is modelled by membership in the list of names the source
actually defines, so that a call to an undefined method or an unimported
module name evaluates to the error CPython would raise.
-/

namespace RFP

set_option maxRecDepth 10000

/- ===================== string utilities (Python semantics) ============== -/

/-- Whitespace characters stripped by Python str.strip (common subset). -/
def pyWhitespace (c : Char) : Bool :=
  c = ' ' || c = '\t' || c = '\n' || c = '\r'

/-- Python str.strip(): drop whitespace from both ends. -/
def pyStrip (s : String) : String :=
  ⟨((s.data.dropWhile pyWhitespace).reverse.dropWhile pyWhitespace).reverse⟩

/-- Python str.lower() (ASCII case folding suffices for the portal data). -/
def pyLower (s : String) : String :=
  ⟨s.data.map Char.toLower⟩

/-- Python s[:n] on a string: take the first n characters. -/
def pyTake (n : Nat) (s : String) : String :=
  ⟨s.data.take n⟩

/-- Python str.split(sep) for a one-character separator, on char lists. -/
def splitChars (sep : Char) : List Char → List (List Char)
  | [] => [[]]
  | c :: cs =>
    let rest := splitChars sep cs
    if c = sep then [] :: rest
    else
      match rest with
      | [] => [[c]]
      | grp :: groups => (c :: grp) :: groups

/-- Python s.split(sep)[0]. -/
def firstSplit (sep : Char) (s : String) : String :=
  ⟨(splitChars sep s.data).headD []⟩

/-- Does the first list occur as a leading segment of the second list? -/
def leadsWith : List Char → List Char → Bool
  | [], _ => true
  | _ :: _, [] => false
  | p :: ps, c :: cs => p = c && leadsWith ps cs

/-- Does the first list occur as a contiguous sublist of the second? -/
def occursIn (pat : List Char) : List Char → Bool
  | [] => leadsWith pat []
  | c :: cs => leadsWith pat (c :: cs) || occursIn pat cs

/-- Python `needle in hay` on strings. -/
def strContains (hay needle : String) : Bool :=
  occursIn needle.data hay.data

/-- Python str.startswith. -/
def pyStartsWith (s pre : String) : Bool :=
  leadsWith pre.data s.data

/-- Numeric value of a digit string (assuming all digits). -/
def digitsToNat (l : List Char) : Nat :=
  l.foldl (fun a c => a * 10 + (c.toNat - 48)) 0

/-- All characters are ASCII digits. -/
def allDigits (l : List Char) : Bool :=
  l.all Char.isDigit

/-- Parse a digit group whose length lies between lo and hi (CPython
strptime bounds the number of digits a directive may consume). -/
def parseNatBetween (lo hi : Nat) (l : List Char) : Option Nat :=
  if allDigits l && decide (lo ≤ l.length) && decide (l.length ≤ hi)
      && decide (0 < l.length) then
    some (digitsToNat l)
  else none

/- ===================== calendar dates ================================== -/

/-- A Gregorian calendar date, as held by Python datetime objects. -/
structure Date where
  year : Nat
  month : Nat
  day : Nat
deriving DecidableEq, Repr

/-- Gregorian leap-year rule. -/
def isLeapYear (y : Nat) : Bool :=
  y % 4 = 0 && (y % 100 ≠ 0 || y % 400 = 0)

/-- Number of days in a month of a given year. -/
def daysInMonth (y m : Nat) : Nat :=
  if m = 2 then (if isLeapYear y then 29 else 28)
  else if m = 4 ∨ m = 6 ∨ m = 9 ∨ m = 11 then 30
  else 31

/-- The date is one Python's datetime constructor would accept
(month and day in range; year range checks are done in checkDate). -/
def Date.Valid (d : Date) : Prop :=
  1 ≤ d.month ∧ d.month ≤ 12 ∧ 1 ≤ d.day ∧ d.day ≤ daysInMonth d.year d.month

instance (d : Date) : Decidable d.Valid := by
  unfold Date.Valid; infer_instance

/-- The calendar successor of a date. -/
def nextDay (d : Date) : Date :=
  if d.day < daysInMonth d.year d.month then ⟨d.year, d.month, d.day + 1⟩
  else if d.month < 12 then ⟨d.year, d.month + 1, 1⟩
  else ⟨d.year + 1, 1, 1⟩

/-- Python date + timedelta(days = n), as n calendar successors. -/
def addDays (d : Date) : Nat → Date
  | 0 => d
  | n + 1 => addDays (nextDay d) n

/-- Order-reflecting numeric key of a date (valid dates have day < 100
and month < 100, so lexicographic date order agrees with this key). -/
def dateKey (d : Date) : Nat :=
  d.year * 10000 + d.month * 100 + d.day

/-- Left-pad a numeral with zeros to the given width. -/
def padNum (width n : Nat) : String :=
  ⟨List.replicate (width - (Nat.repr n).data.length) '0' ++ (Nat.repr n).data⟩

/-- Python strftime with format YYYY-MM-DD. -/
def formatYMD (d : Date) : String :=
  padNum 4 d.year ++ "-" ++ padNum 2 d.month ++ "-" ++ padNum 2 d.day

/-- Range checks performed by the datetime constructor after strptime
matches its directives. -/
def checkDate (y m d : Nat) : Option Date :=
  if 1 ≤ y ∧ y ≤ 9999 ∧ 1 ≤ m ∧ m ≤ 12 ∧ 1 ≤ d ∧ d ≤ daysInMonth y m then
    some ⟨y, m, d⟩
  else none

/- ===================== strptime format patterns ======================== -/

/-- strptime with format month/day/4-digit-year, with sep the separator
('/' models the format string m/d/Y, '-' models m-d-Y). -/
def parseMDYSep (sep : Char) (s : String) : Option Date :=
  match splitChars sep s.data with
  | [ms, ds, ys] => do
    let m ← parseNatBetween 1 2 ms
    let d ← parseNatBetween 1 2 ds
    let y ← parseNatBetween 4 4 ys
    checkDate y m d
  | _ => none

/-- strptime with format Y-m-d (4-digit year first). -/
def parseYMDdash (s : String) : Option Date :=
  match splitChars '-' s.data with
  | [ys, ms, ds] => do
    let y ← parseNatBetween 4 4 ys
    let m ← parseNatBetween 1 2 ms
    let d ← parseNatBetween 1 2 ds
    checkDate y m d
  | _ => none

/-- strptime with format m/d/y (2-digit year; 0-68 maps to 2000s,
69-99 to 1900s, as in CPython). -/
def parseMDy2 (s : String) : Option Date :=
  match splitChars '/' s.data with
  | [ms, ds, ys] => do
    let m ← parseNatBetween 1 2 ms
    let d ← parseNatBetween 1 2 ds
    let y2 ← parseNatBetween 2 2 ys
    checkDate (if y2 ≤ 68 then 2000 + y2 else 1900 + y2) m d
  | _ => none

/-- Full month names, lowercase, as matched by strptime directive B. -/
def monthNamesFull : List (List Char × Nat) :=
  [("january".data, 1), ("february".data, 2), ("march".data, 3),
   ("april".data, 4), ("may".data, 5), ("june".data, 6), ("july".data, 7),
   ("august".data, 8), ("september".data, 9), ("october".data, 10),
   ("november".data, 11), ("december".data, 12)]

/-- Abbreviated month names, lowercase, as matched by strptime directive b. -/
def monthNamesAbbr : List (List Char × Nat) :=
  [("jan".data, 1), ("feb".data, 2), ("mar".data, 3), ("apr".data, 4),
   ("may".data, 5), ("jun".data, 6), ("jul".data, 7), ("aug".data, 8),
   ("sep".data, 9), ("oct".data, 10), ("nov".data, 11), ("dec".data, 12)]

/-- Match a month name at the head of the input, returning its number
and the rest of the input. -/
def matchMonth : List (List Char × Nat) → List Char → Option (Nat × List Char)
  | [], _ => none
  | (nm, m) :: rest, l =>
    if leadsWith nm l then some (m, l.drop nm.length) else matchMonth rest l

/-- Consume at least one whitespace character (strptime turns a space in
the format into a run of whitespace). -/
def skipSpaces1 (l : List Char) : Option (List Char) :=
  match l with
  | c :: cs => if pyWhitespace c then some (cs.dropWhile pyWhitespace) else none
  | [] => none

/-- strptime with format "MonthName day, 4-digit-year" (directives B or b
according to the name table), case-insensitive as in CPython. -/
def parseBdY (names : List (List Char × Nat)) (s : String) : Option Date :=
  let l := s.data.map Char.toLower
  match matchMonth names l with
  | none => none
  | some (m, rest) =>
    match skipSpaces1 rest with
    | none => none
    | some rest1 =>
      let ds := rest1.takeWhile Char.isDigit
      let rest2 := rest1.dropWhile Char.isDigit
      if ds.length = 0 ∨ 2 < ds.length then none
      else
        match rest2 with
        | ',' :: rest3 =>
          match skipSpaces1 rest3 with
          | none => none
          | some rest4 =>
            let ys := rest4.takeWhile Char.isDigit
            let rest5 := rest4.dropWhile Char.isDigit
            if ys.length = 4 ∧ rest5 = [] then
              checkDate (digitsToNat ys) m (digitsToNat ds)
            else none
        | _ => none

/- ===================== Python error model ============================== -/

/-- Exceptions relevant to the claims: unresolved module-level names and
missing object attributes. -/
inductive PyErr
  | nameError (name : String)
  | attributeError (name : String)
deriving DecidableEq, Repr

/- ===================== per-jurisdiction date parsing =================== -/

/-- KentuckyScraper.parse_date (scrapers/kentucky.py lines 47-60):
empty input gives None; otherwise the text before the first space is
parsed with format m/d/Y and re-formatted as YYYY-MM-DD; any parse
failure gives None. -/
def kentucky_parse_date (raw : String) : Option String :=
  if raw = "" then none
  else (parseMDYSep '/' (firstSplit ' ' raw)).map formatYMD

/-- The Kentucky close-date computation at scrapers/kentucky.py lines
231-233: parse the date line, and when the result is falsy fall back to
datetime.now(), i.e. today, formatted YYYY-MM-DD. -/
def kentuckyCloseDate (today : Date) (dateLine : String) : String :=
  match kentucky_parse_date dateLine with
  | none => formatYMD today
  | some s => if s = "" then formatYMD today else s

/-- The ordered format list of VirginiaScraper.parse_date
(scrapers/virginia.py line 37); the first successful parse wins. -/
def virginiaTryFormats (s : String) : Option Date :=
  parseMDYSep '/' s <|> parseMDYSep '-' s <|> parseYMDdash s <|>
    parseBdY monthNamesFull s <|> parseBdY monthNamesAbbr s <|> parseMDy2 s

/-- VirginiaScraper.parse_date (scrapers/virginia.py lines 25-49):
None for empty input; otherwise the stripped input is tried against the
format list, and when every format fails the result is
datetime.now() + timedelta(days=30), formatted YYYY-MM-DD.
PuertoRicoScraper.parse_date (scrapers/puerto_rico.py lines 25-49) is
the same function with one fewer numeric format. -/
def virginia_parse_date (today : Date) (raw : String) : Option String :=
  if raw = "" then none
  else
    match virginiaTryFormats (pyStrip raw) with
    | some d => some (formatYMD d)
    | none => some (formatYMD (addDays today 30))

/- ===================== FieldMapper (base_scraper.py) =================== -/

/-- The ordered keyword table of BaseScraper.map_solicitation_type
(scrapers/base_scraper.py lines 118-125); Python dicts preserve
insertion order, so iteration follows this list order. -/
def typeMapping : List (String × String) :=
  [("rfp", "RFP - Request for Proposal"),
   ("rfb", "RFB - Request for Bids"),
   ("rfq", "RFQ - Request for Quote"),
   ("rfi", "RFI - Request for Information"),
   ("ifb", "IFB - Invitation for Bid"),
   ("rft", "RFT - Request for Tender")]

/-- The ordered keyword table of BaseScraper.map_category
(scrapers/base_scraper.py lines 138-150). -/
def categoryMapping : List (String × String) :=
  [("legal", "Legal Services"),
   ("construction", "Construction"),
   ("equipment", "Equipment"),
   ("technology", "Technology/IT Services"),
   ("it services", "Technology/IT Services"),
   ("professional", "Professional Services"),
   ("consulting", "Consulting"),
   ("supplies", "Supplies"),
   ("maintenance", "Maintenance/Repair"),
   ("healthcare", "Healthcare"),
   ("medical", "Healthcare")]

/-- The for-loop over the keyword table: return the canonical value of
the first keyword contained in the (already lowercased) input, else
the literal Other. -/
def firstKeywordMatch : List (String × String) → String → String
  | [], _ => "Other"
  | (k, v) :: rest, s => if strContains s k then v else firstKeywordMatch rest s

/-- BaseScraper.map_solicitation_type (scrapers/base_scraper.py lines
113-131); none models a Python-falsy raw value (None or the empty
string, both caught by the `if not raw_type` guard). -/
def map_solicitation_type (raw : Option String) : String :=
  match raw with
  | none => "Other"
  | some s => if s = "" then "Other" else firstKeywordMatch typeMapping (pyLower s)

/-- BaseScraper.map_category (scrapers/base_scraper.py lines 133-156). -/
def map_category (raw : Option String) : String :=
  match raw with
  | none => "Other"
  | some s => if s = "" then "Other" else firstKeywordMatch categoryMapping (pyLower s)

/- ===================== RecordStoreClient pieces ======================== -/

/-- One record of the existing-fingerprint SOQL query response; the
Solicitation_Number__c field may be absent or empty. -/
structure SFQueryRecord where
  solicitationNumber : Option String
deriving DecidableEq, Repr

/-- The HTTP response to the existing-fingerprint query. -/
structure SFQueryResponse where
  status : Nat
  records : List SFQueryRecord
deriving DecidableEq, Repr

/-- BaseScraper.get_existing_solicitation_numbers (scrapers/base_scraper.py
lines 67-81; identical in scripts/scrapers/base_scraper.py lines 73-87):
on HTTP 200 the set of truthy Solicitation_Number__c values of the
returned records, on any other status the empty set.  The Python set is
modelled as the list of its members in response order. -/
def get_existing_solicitation_numbers (resp : SFQueryResponse) : List String :=
  if resp.status = 200 then
    (resp.records.filterMap (fun r => r.solicitationNumber)).filter (fun s => s ≠ "")
  else []

/-- Names bound at module level in scrapers/base_scraper.py (its import
statements, lines 4-8, plus the class itself).  timedelta is NOT among
them: line 8 imports only datetime from the datetime module. -/
def baseScraperModuleGlobals : List String :=
  ["ABC", "abstractmethod", "sync_playwright", "PlaywrightTimeout",
   "os", "requests", "datetime", "BaseScraper"]

/-- CPython resolution of a module-level name inside base_scraper.py. -/
def resolveGlobal (n : String) : Except PyErr Unit :=
  if n ∈ baseScraperModuleGlobals then Except.ok () else Except.error (PyErr.nameError n)

/-- The stub record BaseScraper.create_stub_opportunity intends to build
(scrapers/base_scraper.py lines 99-111). -/
structure StubOpportunity where
  accountId : String
  name : String
  stageName : String
  closeDate : String
  responseStatus : String
  portalUrl : String
  dataSource : String
  description : String
deriving DecidableEq, Repr

/-- BaseScraper.create_stub_opportunity (scrapers/base_scraper.py lines
99-111).  The stub_data dict literal evaluates its values in order;
computing CloseDate evaluates datetime.now() + timedelta(days=30), and
the names datetime and timedelta are resolved in the module namespace
at that point. -/
def create_stub_opportunity (today : Date)
    (accountId portalUrl errorMessage : String) : Except PyErr StubOpportunity := do
  let nm := "Manual Review Required - " ++ pyTake 50 portalUrl
  let _ ← resolveGlobal "datetime"
  let _ ← resolveGlobal "timedelta"
  let closeDate := formatYMD (addDays today 30)
  Except.ok
    { accountId := accountId
      name := nm
      stageName := "Prospecting"
      closeDate := closeDate
      responseStatus := "Scraper Error - Manual Review Needed"
      portalUrl := portalUrl
      dataSource := "Automated Scraper"
      description := "Scraper encountered an error. Manual review needed.\n\nError: "
        ++ errorMessage ++ "\n\nPortal URL: " ++ portalUrl }

/- ===================== class attribute tables ========================== -/

/-- Methods defined on BaseScraper (scrapers/base_scraper.py).  There is
no update_account_scrape_status and no close_browser among them. -/
def baseScraperMethods : List String :=
  ["__init__", "setup_browser", "cleanup", "get_account_id", "scrape",
   "get_existing_solicitation_numbers", "create_salesforce_opportunity",
   "create_stub_opportunity", "map_solicitation_type", "map_category",
   "parse_closing_date"]

/-- Attribute lookup order for KentuckyScraper (scrapers/kentucky.py):
its own methods, then the base class. -/
def kentuckyScraperMethods : List String :=
  ["__init__", "get_account_id", "_query_account_id", "parse_date", "scrape"]
    ++ baseScraperMethods

/-- Attribute lookup order for VirginiaScraper (scrapers/virginia.py). -/
def virginiaScraperMethods : List String :=
  ["__init__", "get_account_id", "parse_date", "scrape"] ++ baseScraperMethods

/-- Attribute lookup order for MassachusettsScraper
(scrapers/massachusetts.py). -/
def massachusettsScraperMethods : List String :=
  ["__init__", "get_account_id", "parse_date", "scrape"] ++ baseScraperMethods

/-- Attribute lookup order for PennsylvaniaScraper
(scrapers/pennsylvania.py). -/
def pennsylvaniaScraperMethods : List String :=
  ["__init__", "get_account_id", "navigate_to_solicitations", "export_csv",
   "parse_csv", "parse_date", "create_opportunity", "scrape"]
    ++ baseScraperMethods

/-- CPython attribute resolution on an instance of the given class. -/
def resolveAttr (cls : List String) (n : String) : Except PyErr String :=
  if n ∈ cls then Except.ok n else Except.error (PyErr.attributeError n)

/-- Evaluating self.update_account_scrape_status(...) on an instance of
the given scraper class: the method is called at kentucky.py lines
262 and 268, virginia.py lines 138, 358 and 383, massachusetts.py lines
264 and 290, puerto_rico.py lines 174, 305 and 330, but no class in the
repository defines it. -/
def update_account_scrape_status_call (cls : List String) : Except PyErr Unit :=
  (resolveAttr cls "update_account_scrape_status").map (fun _ => ())

/-- The status-reporting epilogue of KentuckyScraper.scrape
(scrapers/kentucky.py lines 261-269): line 262 calls
self.update_account_scrape_status; if that raises, the except handler
at line 265 runs and line 268 calls the same method again, whose
exception propagates out of scrape(). -/
def kentuckyEpilogue : Except PyErr Unit :=
  match update_account_scrape_status_call kentuckyScraperMethods with
  | Except.ok _ => Except.ok ()
  | Except.error _ => update_account_scrape_status_call kentuckyScraperMethods

/-- The finally block of PennsylvaniaScraper.scrape
(scrapers/pennsylvania.py lines 211-212): it calls self.close_browser(). -/
def pennsylvaniaFinallyStep : Except PyErr Unit :=
  (resolveAttr pennsylvaniaScraperMethods "close_browser").map (fun _ => ())

/-- The finally block of VirginiaScraper.scrape (scrapers/virginia.py
lines 400-401): it calls self.cleanup(), defined on the base class. -/
def virginiaFinallyStep : Except PyErr Unit :=
  (resolveAttr virginiaScraperMethods "cleanup").map (fun _ => ())

/- ===================== Kentucky extraction and sync ==================== -/

/-- One extracted listing row of the Kentucky results table: the
inner_text of its td cells in order, and the href attribute of the
first anchor in the row (none when the row has no anchor element). -/
structure KYRow where
  cells : List String
  href : Option String
deriving DecidableEq, Repr

/-- The Opportunity payload built at scrapers/kentucky.py lines 236-248. -/
structure SFOpportunity where
  name : String
  accountId : String
  solicitationNumber : String
  closeDate : String
  stageName : String
  description : String
deriving DecidableEq, Repr

/-- Kentucky account id (scrapers/kentucky.py line 25). -/
def kyAccountId : String := "001V400000dOSjKIAW"

/-- Kentucky portal URL (scrapers/kentucky.py line 18). -/
def kyPortalUrl : String := "https://vss.ky.gov/"

/-- The natural key of a Kentucky row: cells[3].inner_text().strip()
(line 208), then its first line, stripped (line 212). -/
def kentuckyRowKey (r : KYRow) : String :=
  pyStrip (firstSplit '\n' (pyStrip (r.cells.getD 3 "")))

/-- The date line of a Kentucky row: cells[4].inner_text().strip()
(line 209), then its first line, stripped (line 215). -/
def kentuckyDateLine (r : KYRow) : String :=
  pyStrip (firstSplit '\n' (pyStrip (r.cells.getD 4 "")))

/-- The absolute link computed at scrapers/kentucky.py lines 222-228:
prepend the site origin to site-relative hrefs; fall back to the portal
URL when the row has no anchor element. -/
def kentuckyFullLink (r : KYRow) : String :=
  match r.href with
  | some h => if h ≠ "" && pyStartsWith h "/" then "https://vss.ky.gov" ++ h else h
  | none => kyPortalUrl

/-- The Opportunity data constructed for one non-duplicate Kentucky row
(scrapers/kentucky.py lines 236-248). -/
def kentuckyBuildOpp (today : Date) (r : KYRow) : SFOpportunity :=
  let descriptionRaw := pyStrip (r.cells.getD 1 "")
  let solicitationRaw := pyStrip (r.cells.getD 3 "")
  let dateRaw := pyStrip (r.cells.getD 4 "")
  { name := pyTake 120 descriptionRaw
    accountId := kyAccountId
    solicitationNumber := kentuckyRowKey r
    closeDate := kentuckyCloseDate today (kentuckyDateLine r)
    stageName := "Prospecting"
    description := "Full Title: " ++ descriptionRaw
      ++ "\nSolicitation ID: " ++ solicitationRaw
      ++ "\nLink: " ++ kentuckyFullLink r
      ++ "\nExtracted Date: " ++ dateRaw }

/-- The row loop of KentuckyScraper.scrape (scrapers/kentucky.py lines
192-257): rows with fewer than 6 cells are skipped; a row whose key is
in the pre-fetched existing set is skipped; otherwise one create call
is issued with the built payload.  The existing set is never modified
inside the loop.  Returns the payloads passed to
create_salesforce_opportunity, in row order. -/
def kentuckyProcessRows (today : Date) (existing : List String) :
    List KYRow → List SFOpportunity
  | [] => []
  | r :: rest =>
    if r.cells.length < 6 then kentuckyProcessRows today existing rest
    else if kentuckyRowKey r ∈ existing then kentuckyProcessRows today existing rest
    else kentuckyBuildOpp today r :: kentuckyProcessRows today existing rest

/-- A row both survives the cell-count guard and is not deduplicated
against the pre-fetched set. -/
def kyRowEligible (existing : List String) (r : KYRow) : Bool :=
  decide (6 ≤ r.cells.length ∧ kentuckyRowKey r ∉ existing)

/-- A row survives the cell-count guard at scrapers/kentucky.py line 196. -/
def kyRowWellFormed (r : KYRow) : Bool :=
  decide (6 ≤ r.cells.length)

/-- Observable effects of one KentuckyScraper.scrape run on a page of
extracted rows: the create calls issued, the printed row count (line
188), the new-opportunity counter (lines 190, 252), and the final
outcome of the call: scrape() has no return statement, so a normal exit
would yield None, and the status-update epilogue determines whether the
run exits normally or with a propagating exception. -/
structure KYScrapeEffects where
  createdOpps : List SFOpportunity
  printedFound : Nat
  newOppsCount : Nat
  result : Except PyErr Unit
deriving Repr

/-- KentuckyScraper.scrape (scrapers/kentucky.py lines 62-269) on the
pure data of one run: the existing-fingerprint set is computed once,
from one query response, before the row loop runs (line 70 precedes the
whole playwright block); then every row is processed against that same
set, and the epilogue reports status. -/
def kentuckyScrape (today : Date) (resp : SFQueryResponse) (rows : List KYRow) :
    KYScrapeEffects :=
  let existing := get_existing_solicitation_numbers resp
  let created := kentuckyProcessRows today existing rows
  { createdOpps := created
    printedFound := rows.length
    newOppsCount := created.length
    result := kentuckyEpilogue }

/- ===================== SalesforceAuth token cache ====================== -/

/-- The mutable state of SalesforceAuth
(rfp-sonar/scrapers/salesforce_auth.py lines 13-23): cached access
token, its computed expiry instant (seconds on an absolute clock), the
legacy static key, and the OAuth refresh credential.  none models a
Python-falsy value (unset environment variable or uncached field). -/
structure AuthState where
  accessToken : Option String
  tokenExpiresAt : Option Int
  legacyApiKey : Option String
  refreshTokenCred : Option String
deriving DecidableEq, Repr

/-- What one get_access_token call did: returned the legacy key,
returned the cached token, or performed a refresh-token exchange and
cached the fresh token with the given computed expiry. -/
inductive TokenFetch
  | legacy (tok : String)
  | cached (tok : String)
  | refreshed (tok : String) (newExpiresAt : Int)
deriving DecidableEq, Repr

/-- SalesforceAuth._refresh_access_token
(rfp-sonar/scrapers/salesforce_auth.py lines 48-77), successful case:
the exchanged token is cached with expiry now + 1 hour 30 minutes
(5400 seconds) — the safety margin against the observed 2-hour token
lifetime is applied here, when the expiry is computed (line 67). -/
def refreshAccessToken (now : Int) (freshTok : String) : TokenFetch :=
  TokenFetch.refreshed freshTok (now + 5400)

/-- SalesforceAuth.get_access_token
(rfp-sonar/scrapers/salesforce_auth.py lines 33-46): legacy key
short-circuit when no refresh credential is configured; then the cached
token is returned whenever now < token_expires_at — no safety margin is
subtracted at this comparison; otherwise a refresh is performed.
freshTok stands for the access_token of the refresh response. -/
def get_access_token (st : AuthState) (now : Int) (freshTok : String) : TokenFetch :=
  match st.legacyApiKey, st.refreshTokenCred with
  | some k, none => TokenFetch.legacy k
  | _, _ =>
    match st.accessToken, st.tokenExpiresAt with
    | some t, some e =>
      if now < e then TokenFetch.cached t else refreshAccessToken now freshTok
    | _, _ => refreshAccessToken now freshTok

/- ===================== trigger entry points (app.py) =================== -/

/-- The scraper registry of app.py lines 22-29. -/
def SCRAPERS : List String := ["kentucky", "massachusetts", "pennsylvania"]

/-- One entry of the batch results dict (app.py lines 124-143): either
the not-found marker, the per-jurisdiction error entry recorded when
its scraper raised, or the scraper's own returned result. -/
inductive BatchEntry (α : Type)
  | notFound (name : String)
  | failed (err : String)
  | completed (r : α)
deriving DecidableEq, Repr

/-- Python dict assignment d[k] = v on an association list. -/
def dictInsert {α : Type} : List (String × α) → String → α → List (String × α)
  | [], k, v => [(k, v)]
  | (k', v') :: rest, k, v =>
    if k' = k then (k, v) :: rest else (k', v') :: dictInsert rest k v

/-- Python dict lookup d.get(k). -/
def dictLookup {α : Type} : List (String × α) → String → Option α
  | [], _ => none
  | (k', v) :: rest, k => if k' = k then some v else dictLookup rest k

/-- The loop body of scrape_batch (app.py lines 126-143): unknown
jurisdictions get a not-found entry; otherwise the scraper runs inside
its own try, and an exception is caught and recorded as that
jurisdiction's error entry; in every case the loop continues with the
remaining jurisdictions.  The scraper behaviour f maps a jurisdiction
to its run outcome: a returned result or a raised exception message. -/
def scrapeBatchLoop {α : Type} (f : String → Except String α) :
    List String → List (String × BatchEntry α) → List (String × BatchEntry α)
  | [], results => results
  | j :: rest, results =>
    if j ∉ SCRAPERS then
      scrapeBatchLoop f rest (dictInsert results j (BatchEntry.notFound j))
    else
      match f j with
      | Except.ok r => scrapeBatchLoop f rest (dictInsert results j (BatchEntry.completed r))
      | Except.error e => scrapeBatchLoop f rest (dictInsert results j (BatchEntry.failed e))

/-- scrape_batch (app.py lines 101-155): run the loop over the requested
jurisdictions starting from the empty results dict; the dict itself is
what the endpoint serializes back to the caller. -/
def scrape_batch {α : Type} (f : String → Except String α) (js : List String) :
    List (String × BatchEntry α) :=
  scrapeBatchLoop f js []

/-- The HTTP response of the single-jurisdiction endpoint, as data. -/
inductive HttpOutcome (α : Type)
  | ok (r : α)
  | notFound (name : String)
  | serverError (err : String)
deriving DecidableEq, Repr

/-- scrape (app.py lines 60-98): 404 for unknown jurisdictions; the
scraper's exception is caught and returned as a 500 error body;
otherwise the result is returned with status 200.  Nothing is thrown
across the boundary: the codomain is plain response data. -/
def scrape_single {α : Type} (f : String → Except String α) (j : String) :
    HttpOutcome α :=
  if j ∉ SCRAPERS then HttpOutcome.notFound j
  else
    match f j with
    | Except.ok r => HttpOutcome.ok r
    | Except.error e => HttpOutcome.serverError e

/-- The expected batch entry of one jurisdiction, determined by that
jurisdiction's own outcome alone (used to state failure isolation). -/
def batchEntryFor {α : Type} (f : String → Except String α) (j : String) :
    BatchEntry α :=
  if j ∉ SCRAPERS then BatchEntry.notFound j
  else
    match f j with
    | Except.ok r => BatchEntry.completed r
    | Except.error e => BatchEntry.failed e

/- ===================== concrete inputs for the claims ================== -/

/-- Scenario run date used by claim C1. -/
def c1Today : Date := ⟨2026, 10, 12⟩

/-- Scenario fingerprint query response for claim C1: RFB-100 already
exists in the record store. -/
def c1Resp : SFQueryResponse := ⟨200, [⟨some "RFB-100"⟩]⟩

/-- Scenario page of two extracted rows for claim C1: one row whose
natural key RFB-100 is already in the fetched set, one new row RFB-101. -/
def c1Rows : List KYRow :=
  [⟨["", "Road Resurfacing District 4", "Dept of Transportation",
     "RFB-100\nRFB\nConstruction", "10/14/2026 03:30 PM EDT\nOpen", "Respond"],
    some "/bids/100"⟩,
   ⟨["", "Bridge Inspection Services", "Dept of Transportation",
     "RFB-101\nRFB\nConstruction", "11/02/2026 02:00 PM EDT\nOpen", "Respond"],
    some "/bids/101"⟩]

/-- A single row with natural key RFB-200, used twice in one run by
claim C2's counterexample. -/
def c2Row : KYRow :=
  ⟨["", "Fleet Maintenance", "Finance Cabinet",
    "RFB-200\nRFB\nMaintenance", "12/01/2026 10:00 AM EST\nOpen", "Respond"],
   some "/bids/200"⟩

/-- Run date for claim C2's counterexample. -/
def c2Today : Date := ⟨2026, 10, 12⟩

/-- Token-cache state for claim C7: a cached token whose stored expiry
is 600 seconds (10 minutes) ahead of the clock value 0, with OAuth
credentials configured (no legacy key). -/
def c7State : AuthState :=
  { accessToken := some "CACHED_TOKEN"
    tokenExpiresAt := some 600
    legacyApiKey := none
    refreshTokenCred := some "REFRESH_CRED" }

/-- Scraper behaviour for claim C8's witness: kentucky raises, the
other jurisdictions return a count. -/
def c8Behaviour : String → Except String Nat :=
  fun j => if j = "kentucky" then Except.error "portal timeout" else Except.ok 3

/-- Fingerprint query response for claim C10's witness: an expired
credential yields HTTP 401. -/
def c10Resp : SFQueryResponse := ⟨401, [⟨some "RFB-300"⟩]⟩

/-- Run date for claim C10's witness. -/
def c10Today : Date := ⟨2026, 10, 12⟩

/-- Rows for claim C10's witness: one row whose key RFB-300 is already
present in the store, yet will be re-submitted because the fingerprint
query failed. -/
def c10Rows : List KYRow :=
  [⟨["", "Snow Removal", "Transportation",
     "RFB-300\nRFB\nMaintenance", "11/20/2026 04:00 PM EST\nOpen", "Respond"],
    none⟩]

/- ===================== helper lemmas =================================== -/

/-- The keyword loop returns the canonical value of the first table entry
whose keyword occurs in the input, defaulting to Other. -/
theorem firstKeywordMatch_eq_find (tbl : List (String × String)) (s : String) :
    firstKeywordMatch tbl s
      = ((tbl.find? (fun kv => strContains s kv.1)).map Prod.snd).getD "Other" := by
  induction tbl with
  | nil => rfl
  | cons kv rest ih =>
    obtain ⟨k, v⟩ := kv
    by_cases h : strContains s k
    · rw [List.find?_cons_of_pos _ (by simpa using h)]
      simp [firstKeywordMatch, h]
    · rw [List.find?_cons_of_neg _ (by simpa using h)]
      simpa [firstKeywordMatch, h] using ih

/-- The keyword loop never returns the empty string when every canonical
value in the table is non-empty. -/
theorem firstKeywordMatch_ne_empty (tbl : List (String × String)) (s : String)
    (h : ∀ kv ∈ tbl, kv.2 ≠ "") : firstKeywordMatch tbl s ≠ "" := by
  induction tbl with
  | nil =>
    show "Other" ≠ ""
    decide
  | cons kv rest ih =>
    obtain ⟨k, v⟩ := kv
    show (if strContains s k then v else firstKeywordMatch rest s) ≠ ""
    by_cases hc : strContains s k
    · simpa [hc] using h (k, v) (List.mem_cons_self _ _)
    · simp only [hc, if_false]
      exact ih (fun kv hkv => h kv (List.mem_cons_of_mem _ hkv))

/-- The Kentucky row loop creates exactly the eligible rows, in order. -/
theorem kentuckyProcessRows_eq (today : Date) (existing : List String)
    (rows : List KYRow) :
    kentuckyProcessRows today existing rows
      = (rows.filter (kyRowEligible existing)).map (kentuckyBuildOpp today) := by
  induction rows with
  | nil => rfl
  | cons r rest ih =>
    by_cases h1 : r.cells.length < 6
    · have he : kyRowEligible existing r = false := by
        simp only [kyRowEligible, decide_eq_false_iff_not]
        intro hc
        omega
      simp [kentuckyProcessRows, h1, he, ih]
    · by_cases h2 : kentuckyRowKey r ∈ existing
      · have he : kyRowEligible existing r = false := by
          simp only [kyRowEligible, decide_eq_false_iff_not]
          intro hc
          exact hc.2 h2
        simp [kentuckyProcessRows, h1, h2, he, ih]
      · have he : kyRowEligible existing r = true := by
          simp only [kyRowEligible, decide_eq_true_eq]
          exact ⟨by omega, h2⟩
        simp [kentuckyProcessRows, h1, h2, he, ih]

/-- The keys of the created records are the keys of the eligible rows. -/
theorem kentuckyCreatedKeys (today : Date) (existing : List String)
    (rows : List KYRow) :
    (kentuckyProcessRows today existing rows).map (fun o => o.solicitationNumber)
      = (rows.filter (kyRowEligible existing)).map kentuckyRowKey := by
  rw [kentuckyProcessRows_eq, List.map_map]
  rfl

/-- A row is eligible against the empty fingerprint set exactly when it
survives the cell-count guard. -/
theorem kyRowEligible_nil (r : KYRow) : kyRowEligible [] r = kyRowWellFormed r := by
  simp [kyRowEligible, kyRowWellFormed]

/-- Looking a key up after a Python dict assignment. -/
theorem dictLookup_insert {α : Type} (l : List (String × α)) (k j : String) (v : α) :
    dictLookup (dictInsert l k v) j = if k = j then some v else dictLookup l j := by
  induction l with
  | nil => rfl
  | cons p rest ih =>
    obtain ⟨k', v'⟩ := p
    by_cases hk : k' = k
    · subst hk
      by_cases hj : k' = j <;> simp [dictInsert, dictLookup, hj]
    · by_cases hj : k' = j
      · subst hj
        have hk2 : ¬ k = k' := fun h => hk h.symm
        simp [dictInsert, dictLookup, hk, hk2]
      · simp [dictInsert, dictLookup, hk, hj, ih]

/-- The batch loop records, for every requested jurisdiction, the entry
determined by that jurisdiction's own outcome, and leaves every other
key of the accumulator untouched. -/
theorem scrapeBatchLoop_lookup {α : Type} (f : String → Except String α) :
    ∀ (js : List String) (acc : List (String × BatchEntry α)) (j : String),
      dictLookup (scrapeBatchLoop f js acc) j
        = if j ∈ js then some (batchEntryFor f j) else dictLookup acc j := by
  intro js
  induction js with
  | nil => simp [scrapeBatchLoop]
  | cons j' rest ih =>
    intro acc j
    have hstep : ∀ e : BatchEntry α, e = batchEntryFor f j' →
        dictLookup (scrapeBatchLoop f rest (dictInsert acc j' e)) j
          = if j ∈ j' :: rest then some (batchEntryFor f j) else dictLookup acc j := by
      intro e hev
      rw [ih, dictLookup_insert]
      by_cases hm : j ∈ rest
      · simp [hm]
      · by_cases hj : j' = j
        · subst hj
          simp [hm, hev]
        · have hj2 : ¬ j = j' := fun h => hj h.symm
          simp [hm, hj, hj2]
    show dictLookup
        (if j' ∉ SCRAPERS then
          scrapeBatchLoop f rest (dictInsert acc j' (BatchEntry.notFound j'))
         else
          match f j' with
          | Except.ok r => scrapeBatchLoop f rest (dictInsert acc j' (BatchEntry.completed r))
          | Except.error e => scrapeBatchLoop f rest (dictInsert acc j' (BatchEntry.failed e))) j
      = _
    by_cases hreg : j' ∉ SCRAPERS
    · rw [if_pos hreg]
      exact hstep _ (by simp [batchEntryFor, hreg])
    · rw [if_neg hreg]
      cases hf : f j' with
      | ok r => exact hstep _ (by simp [batchEntryFor, hreg, hf])
      | error e => exact hstep _ (by simp [batchEntryFor, hreg, hf])

/-- Month lengths are positive. -/
theorem daysInMonth_pos (y m : Nat) : 1 ≤ daysInMonth y m := by
  unfold daysInMonth
  split
  · split <;> omega
  · split <;> omega

/-- Month lengths are at most 31. -/
theorem daysInMonth_le31 (y m : Nat) : daysInMonth y m ≤ 31 := by
  unfold daysInMonth
  split
  · split <;> omega
  · split <;> omega

/-- Unfolding one step of day addition. -/
theorem addDays_succ (d : Date) (n : Nat) :
    addDays d (n + 1) = addDays (nextDay d) n := rfl

/-- The calendar successor of a valid date is valid. -/
theorem nextDay_valid (d : Date) (h : d.Valid) : (nextDay d).Valid := by
  obtain ⟨y, m, dd⟩ := d
  obtain ⟨h1, h2, h3, h4⟩ := h
  unfold nextDay
  dsimp only at h1 h2 h3 h4 ⊢
  split
  · refine ⟨?_, ?_, ?_, ?_⟩ <;> dsimp only [Date.Valid] <;> omega
  · split
    · have hp := daysInMonth_pos y (m + 1)
      refine ⟨?_, ?_, ?_, ?_⟩ <;> dsimp only [Date.Valid] <;> omega
    · have hp := daysInMonth_pos (y + 1) 1
      refine ⟨?_, ?_, ?_, ?_⟩ <;> dsimp only [Date.Valid] <;> omega

/-- The calendar successor of a valid date is strictly later. -/
theorem nextDay_key_lt (d : Date) (h : d.Valid) : dateKey d < dateKey (nextDay d) := by
  obtain ⟨y, m, dd⟩ := d
  obtain ⟨h1, h2, h3, h4⟩ := h
  have h31 := daysInMonth_le31 y m
  dsimp only at h1 h2 h3 h4 h31
  unfold nextDay
  dsimp only
  split
  · show y * 10000 + m * 100 + dd < y * 10000 + m * 100 + (dd + 1)
    omega
  · split
    · show y * 10000 + m * 100 + dd < y * 10000 + (m + 1) * 100 + 1
      omega
    · show y * 10000 + m * 100 + dd < (y + 1) * 10000 + 1 * 100 + 1
      omega

/-- Adding days preserves validity and never moves the date earlier. -/
theorem addDays_valid_key :
    ∀ (n : Nat) (d : Date), d.Valid →
      (addDays d n).Valid ∧ dateKey d ≤ dateKey (addDays d n) := by
  intro n
  induction n with
  | zero => exact fun d h => ⟨h, le_refl _⟩
  | succ n ih =>
    intro d h
    have hk := nextDay_key_lt d h
    have hrec := ih (nextDay d) (nextDay_valid d h)
    rw [addDays_succ]
    exact ⟨hrec.1, by have := hrec.2; omega⟩

/-- Adding at least one day to a valid date moves it strictly later. -/
theorem addDays_key_lt (d : Date) (h : d.Valid) (n : Nat) :
    dateKey d < dateKey (addDays d (n + 1)) := by
  have hk := nextDay_key_lt d h
  have hrec := addDays_valid_key n (nextDay d) (nextDay_valid d h)
  rw [addDays_succ]
  have := hrec.2
  omega

/- ===================== claims ========================================== -/

/-- C1 (counterexample): on the spec scenario — the fingerprint query
returns the set containing RFB-100, the portal page has two rows with
keys RFB-100 and RFB-101 — the Kentucky run does create exactly one
record, with key RFB-101; but contrary to the claim it reports no
found/created/skipped result: KentuckyScraper.scrape has no return
statement, and before it can return None its status-update epilogue
raises AttributeError (update_account_scrape_status is not defined),
which propagates to the caller.  So no result reporting found=2,
created=1, skipped=1 exists. -/
theorem c1_counterexample :
    (kentuckyScrape c1Today c1Resp c1Rows).createdOpps.map
        (fun o => o.solicitationNumber) = ["RFB-101"]
    ∧ (kentuckyScrape c1Today c1Resp c1Rows).result
        = Except.error (PyErr.attributeError "update_account_scrape_status") :=
  ⟨by decide, rfl⟩

/-- C1 (amended): the existing-key set is fetched once, from a single
query response, before the row loop (this is the structure of
kentuckyScrape, mirroring kentucky.py line 70 preceding the extraction
block); each extracted row whose key is in that set is skipped and each
well-formed row whose key is not in the set issues exactly one create
call, in row order; the scenario page creates exactly the one record
RFB-101 and the printed counters say found=2 rows, created=1; but the
run returns no found/created/skipped counts — it ends with the
propagating AttributeError of the missing status-update method. -/
theorem c1_dedup_pipeline (today : Date) (resp : SFQueryResponse) (rows : List KYRow) :
    ((kentuckyScrape today resp rows).createdOpps.map (fun o => o.solicitationNumber)
        = (rows.filter (kyRowEligible (get_existing_solicitation_numbers resp))).map
            kentuckyRowKey)
    ∧ (kentuckyScrape today resp rows).printedFound = rows.length
    ∧ (kentuckyScrape today resp rows).newOppsCount
        = (rows.filter (kyRowEligible (get_existing_solicitation_numbers resp))).length
    ∧ (kentuckyScrape today resp rows).result
        = Except.error (PyErr.attributeError "update_account_scrape_status")
    ∧ (kentuckyScrape c1Today c1Resp c1Rows).createdOpps.map
        (fun o => o.solicitationNumber) = ["RFB-101"]
    ∧ (kentuckyScrape c1Today c1Resp c1Rows).newOppsCount = 1
    ∧ (kentuckyScrape c1Today c1Resp c1Rows).printedFound = 2 := by
  refine ⟨kentuckyCreatedKeys today _ rows, rfl, ?_, rfl, by decide, by decide, by decide⟩
  show (kentuckyProcessRows today _ rows).length = _
  rw [kentuckyProcessRows_eq, List.length_map]

/-- C2 (counterexample): a natural key appearing twice among the scraped
rows of one run is created twice, not at most once — there is no in-run
supplement: with an empty fingerprint set and the same RFB-200 row
appearing twice on the page, two create calls with key RFB-200 are
issued. -/
theorem c2_counterexample :
    (kentuckyProcessRows c2Today [] [c2Row, c2Row]).map
        (fun o => o.solicitationNumber) = ["RFB-200", "RFB-200"]
    ∧ ¬ ((kentuckyProcessRows c2Today [] [c2Row, c2Row]).length ≤ 1) := by
  refine ⟨by decide, by decide⟩

/-- C2 (amended): the duplicate check consults only the set fetched
before the run; no key of a record created during the run is added to
any supplement.  Hence the number of create calls bearing a key k is 0
when k is in the fetched set, and otherwise equals the number of
well-formed scraped rows whose key is k — each repetition of a new key
issues its own create call. -/
theorem c2_create_counts (today : Date) (existing : List String)
    (rows : List KYRow) (k : String) :
    ((kentuckyProcessRows today existing rows).map
        (fun o => o.solicitationNumber)).count k
      = if k ∈ existing then 0
        else (rows.filter
          (fun r => kyRowWellFormed r && decide (kentuckyRowKey r = k))).length := by
  rw [kentuckyCreatedKeys]
  by_cases hk : k ∈ existing
  · rw [if_pos hk]
    rw [List.count_eq_zero]
    intro hmem
    obtain ⟨r, hr, hkey⟩ := List.mem_map.1 hmem
    have := List.of_mem_filter hr
    rw [kyRowEligible, decide_eq_true_eq] at this
    exact this.2 (hkey ▸ hk)
  · rw [if_neg hk]
    induction rows with
    | nil => rfl
    | cons r rest ih =>
      by_cases hwf : 6 ≤ r.cells.length
      · by_cases hin : kentuckyRowKey r ∈ existing
        · have he : kyRowEligible existing r = false := by
            simp [kyRowEligible, hin]
          have hne : kentuckyRowKey r ≠ k := fun h => hk (h ▸ hin)
          have hp : (kyRowWellFormed r && decide (kentuckyRowKey r = k)) = false := by
            simp [hne]
          simp only [List.filter_cons, he, hp, if_false, Bool.false_eq_true, ih]
        · have he : kyRowEligible existing r = true := by
            simp [kyRowEligible, hwf, hin]
          have hw : kyRowWellFormed r = true := by
            simp [kyRowWellFormed, hwf]
          by_cases hkey : kentuckyRowKey r = k
          · have hp : (kyRowWellFormed r && decide (kentuckyRowKey r = k)) = true := by
              simp [hw, hkey]
            simp only [List.filter_cons, he, hp, if_true, List.map_cons,
              List.count_cons, ih, List.length_cons, hkey]
            simp [hw]
          · have hp : (kyRowWellFormed r && decide (kentuckyRowKey r = k)) = false := by
              simp [hkey]
            simp only [List.filter_cons, he, hp, if_true, if_false, List.map_cons,
              List.count_cons, ih]
            simp [hkey]
      · have he : kyRowEligible existing r = false := by
          simp [kyRowEligible, hwf]
        have hw : kyRowWellFormed r = false := by
          simp [kyRowWellFormed, hwf]
        simp only [List.filter_cons, he, hw, Bool.false_and, if_false,
          Bool.false_eq_true, ih]

/-- C3 (code bug): stub creation never completes, for any account,
portal URL, error message and run date: base_scraper.py line 105
evaluates timedelta(days=30) but line 8 imports only datetime from the
datetime module, so building the stub_data dict raises
NameError: name timedelta is not defined, and no stub record is ever
created.  (Independently, KentuckyScraper's failure path, kentucky.py
lines 265-269, never calls create_stub_opportunity at all.) -/
theorem c3_stub_name_error (today : Date) (accountId portalUrl errorMessage : String) :
    create_stub_opportunity today accountId portalUrl errorMessage
      = Except.error (PyErr.nameError "timedelta") := rfl

/-- C4 (code bug): no scraper class defines update_account_scrape_status,
so the status-update operation does not exist.  Kentucky's epilogue
(kentucky.py lines 262 and 268) raises AttributeError on both the
success and the failure path — the second raise propagates out of
scrape() — and Virginia's calls (virginia.py lines 358 and 383) raise
the same AttributeError inside their try blocks, so the account status
is never updated on either path anywhere. -/
theorem c4_status_update_missing :
    kentuckyEpilogue = Except.error (PyErr.attributeError "update_account_scrape_status")
    ∧ "update_account_scrape_status" ∉ kentuckyScraperMethods
    ∧ "update_account_scrape_status" ∉ virginiaScraperMethods
    ∧ update_account_scrape_status_call virginiaScraperMethods
        = Except.error (PyErr.attributeError "update_account_scrape_status") :=
  ⟨rfl, by decide, by decide, rfl⟩

/-- C5 (counterexample): for the unparsable non-empty date string TBD,
Kentucky's close-date computation (kentucky.py lines 231-233) falls
back to today's date, 2026-10-12 on a run dated 2026-10-12 — not to the
30-days-from-now fallback, and not to a date strictly in the future. -/
theorem c5_counterexample :
    kentuckyCloseDate ⟨2026, 10, 12⟩ "TBD" = "2026-10-12"
    ∧ ¬ (kentuckyCloseDate ⟨2026, 10, 12⟩ "TBD"
          = formatYMD (addDays ⟨2026, 10, 12⟩ 30)
        ∧ formatYMD ⟨2026, 10, 12⟩ < kentuckyCloseDate ⟨2026, 10, 12⟩ "TBD") := by
  refine ⟨by decide, ?_⟩
  intro h
  exact absurd (h.1.symm.trans (by decide) : formatYMD (addDays ⟨2026, 10, 12⟩ 30) = "2026-10-12") (by decide)

/-- C5 (amended): Virginia's parse_date (and Puerto Rico's, which is
identical) maps every unparsable non-empty date string to the
30-days-from-now fallback, never null, and that date is strictly in the
future relative to the run's current (valid) date; Kentucky's caller,
however, falls back to today's date — non-null but not strictly in the
future. -/
theorem c5_date_fallbacks (today : Date) (s t : String)
    (hv : today.Valid) (hne : s ≠ "")
    (hun : virginiaTryFormats (pyStrip s) = none)
    (hkt : kentucky_parse_date t = none) :
    virginia_parse_date today s = some (formatYMD (addDays today 30))
    ∧ dateKey today < dateKey (addDays today 30)
    ∧ kentuckyCloseDate today t = formatYMD today := by
  refine ⟨?_, addDays_key_lt today hv 29, ?_⟩
  · unfold virginia_parse_date
    rw [if_neg hne, hun]
  · unfold kentuckyCloseDate
    rw [hkt]

/-- C5 (witness): on run date 2026-10-12 (a valid date) and the
unparsable non-empty string TBD, Virginia produces 2026-11-11 (30 days
ahead, strictly later) while Kentucky produces 2026-10-12 (today). -/
theorem c5_fallback_witness :
    virginia_parse_date ⟨2026, 10, 12⟩ "TBD" = some "2026-11-11"
    ∧ dateKey ⟨2026, 10, 12⟩ < dateKey (addDays ⟨2026, 10, 12⟩ 30)
    ∧ kentuckyCloseDate ⟨2026, 10, 12⟩ "TBD" = "2026-10-12" := by
  have h := c5_date_fallbacks ⟨2026, 10, 12⟩ "TBD" "TBD"
    (by decide) (by decide) (by decide) (by decide)
  exact ⟨h.1.trans (by decide), h.2.1, h.2.2.trans (by decide)⟩

/-- C6: map_solicitation_type and map_category are total functions that
never return an empty value; absent (None) or empty input yields Other;
and on any other input the result is the canonical value of the first
keyword, in table order, that occurs case-insensitively as a substring
of the input — Other when no keyword matches. -/
theorem c6_mapper_totality :
    (∀ raw : Option String, map_solicitation_type raw ≠ "" ∧ map_category raw ≠ "")
    ∧ map_solicitation_type none = "Other"
    ∧ map_category none = "Other"
    ∧ map_solicitation_type (some "") = "Other"
    ∧ map_category (some "") = "Other"
    ∧ (∀ s : String, map_solicitation_type (some s)
        = if s = "" then "Other"
          else ((typeMapping.find?
              (fun kv => strContains (pyLower s) kv.1)).map Prod.snd).getD "Other")
    ∧ (∀ s : String, map_category (some s)
        = if s = "" then "Other"
          else ((categoryMapping.find?
              (fun kv => strContains (pyLower s) kv.1)).map Prod.snd).getD "Other") := by
  refine ⟨?_, rfl, rfl, rfl, rfl, ?_, ?_⟩
  · intro raw
    match raw with
    | none => exact ⟨by decide, by decide⟩
    | some s =>
      by_cases h : s = ""
      · simp [map_solicitation_type, map_category, h]
      · constructor
        · show (if s = "" then "Other" else firstKeywordMatch typeMapping (pyLower s)) ≠ ""
          rw [if_neg h]
          exact firstKeywordMatch_ne_empty _ _ (by decide)
        · show (if s = "" then "Other" else firstKeywordMatch categoryMapping (pyLower s)) ≠ ""
          rw [if_neg h]
          exact firstKeywordMatch_ne_empty _ _ (by decide)
  · intro s
    by_cases h : s = ""
    · simp [map_solicitation_type, h]
    · show (if s = "" then "Other" else firstKeywordMatch typeMapping (pyLower s)) = _
      rw [if_neg h, if_neg h]
      exact firstKeywordMatch_eq_find _ _
  · intro s
    by_cases h : s = ""
    · simp [map_category, h]
    · show (if s = "" then "Other" else firstKeywordMatch categoryMapping (pyLower s)) = _
      rw [if_neg h, if_neg h]
      exact firstKeywordMatch_eq_find _ _

/-- C7 (counterexample): with a cached token whose stored expiry is 600
seconds (10 minutes) ahead of the clock (and OAuth credentials
configured), get_access_token returns the cached token without any
refresh, although under the claim's policy — refresh unless
now < expiry minus the 30-minute (1800 s) safety margin — a refresh
would be required, since 0 < 600 - 1800 fails. -/
theorem c7_counterexample :
    get_access_token c7State 0 "NEW_TOKEN" = TokenFetch.cached "CACHED_TOKEN"
    ∧ ¬ ((0 : Int) < 600 - 1800) := ⟨rfl, by decide⟩

/-- C7 (amended): when OAuth credentials are configured (no legacy
short-circuit) and a token with expiry e is cached, get_access_token
returns the cached token exactly when now < e — no safety margin is
subtracted at the check; otherwise it performs the refresh exchange and
caches the fresh token with computed expiry now + 5400 s (1.5 h of the
observed 2 h lifetime: the margin is applied only when the expiry is
stored, salesforce_auth.py line 67).  In particular a stored expiry 10
minutes ahead yields the cached token, not a refresh. -/
theorem c7_cache_policy (st : AuthState) (now : Int) (freshTok t : String) (e : Int)
    (hleg : st.legacyApiKey = none)
    (htok : st.accessToken = some t)
    (hexp : st.tokenExpiresAt = some e) :
    (now < e → get_access_token st now freshTok = TokenFetch.cached t)
    ∧ (e ≤ now →
        get_access_token st now freshTok = TokenFetch.refreshed freshTok (now + 5400)) := by
  obtain ⟨a, x, l, rc⟩ := st
  dsimp only at hleg htok hexp
  subst hleg htok hexp
  constructor
  · intro h
    show (if now < e then TokenFetch.cached t else refreshAccessToken now freshTok) = _
    rw [if_pos h]
  · intro h
    show (if now < e then TokenFetch.cached t else refreshAccessToken now freshTok) = _
    rw [if_neg (not_lt.2 h)]
    rfl

/-- C7 (witness): with the stored expiry 600 and clock 599 the cached
token is returned; with clock 600 the refresh is performed and the new
expiry 600 + 5400 = 6000 is cached. -/
theorem c7_cache_witness :
    get_access_token c7State 599 "NEW_TOKEN" = TokenFetch.cached "CACHED_TOKEN"
    ∧ get_access_token c7State 600 "NEW_TOKEN" = TokenFetch.refreshed "NEW_TOKEN" 6000 := by
  have h1 := c7_cache_policy c7State 599 "NEW_TOKEN" "CACHED_TOKEN" 600 rfl rfl rfl
  have h2 := c7_cache_policy c7State 600 "NEW_TOKEN" "CACHED_TOKEN" 600 rfl rfl rfl
  exact ⟨h1.1 (by decide), (h2.2 (by decide)).trans (by decide)⟩

/-- C8: in a batch run, every requested jurisdiction's entry in the
returned results dict is determined by that jurisdiction's own outcome
alone — an exception raised by its scraper is caught and recorded as
its own failed entry, an unknown name gets its not-found entry, and a
normal result is recorded as returned — independently of what any other
jurisdiction did; and the entry exists for every requested
jurisdiction, so one jurisdiction's failure never prevents the others
from running to their own recorded outcome.  Both entry points are
total functions into response data, so no exception crosses the
trigger boundary. -/
theorem c8_batch_isolation {α : Type} (f : String → Except String α)
    (js : List String) (j : String) (h : j ∈ js) :
    dictLookup (scrape_batch f js) j = some (batchEntryFor f j)
    ∧ (∀ e, f j = Except.error e → j ∈ SCRAPERS →
        scrape_single f j = HttpOutcome.serverError e) := by
  constructor
  · rw [scrape_batch, scrapeBatchLoop_lookup f js [] j, if_pos h]
  · intro e hf hreg
    unfold scrape_single
    rw [if_neg (by simpa using hreg), hf]

/-- C8 (witness): in the batch [massachusetts, kentucky] where
kentucky's scraper raises "portal timeout" and massachusetts returns 3,
kentucky's entry records its own failure, massachusetts still has its
completed entry, and the single-jurisdiction endpoint returns the
kentucky failure as a 500 response body. -/
theorem c8_batch_witness :
    dictLookup (scrape_batch c8Behaviour ["massachusetts", "kentucky"]) "kentucky"
      = some (BatchEntry.failed "portal timeout")
    ∧ dictLookup (scrape_batch c8Behaviour ["massachusetts", "kentucky"]) "massachusetts"
      = some (BatchEntry.completed 3)
    ∧ scrape_single c8Behaviour "kentucky" = HttpOutcome.serverError "portal timeout" := by
  have h1 := c8_batch_isolation c8Behaviour ["massachusetts", "kentucky"] "kentucky"
    (by decide)
  have h2 := c8_batch_isolation c8Behaviour ["massachusetts", "kentucky"] "massachusetts"
    (by decide)
  exact ⟨h1.1.trans (by decide), h2.1.trans (by decide),
    h1.2 "portal timeout" rfl (by decide)⟩

/-- C9 (code bug): Pennsylvania's finally block (pennsylvania.py lines
211-212) calls self.close_browser(), but no class in the repository
defines close_browser — the release routine the base class defines is
cleanup() — so on every exit path of a Pennsylvania run the finally
block raises AttributeError and the browser/session resource is never
released; Virginia's finally block resolves cleanup() and runs it. -/
theorem c9_cleanup_not_run :
    pennsylvaniaFinallyStep = Except.error (PyErr.attributeError "close_browser")
    ∧ "close_browser" ∉ pennsylvaniaScraperMethods
    ∧ "cleanup" ∈ pennsylvaniaScraperMethods
    ∧ virginiaFinallyStep = Except.ok () :=
  ⟨rfl, by decide, by decide, rfl⟩

/-- C10: whenever the existing-fingerprint query returns any non-200
status, get_existing_solicitation_numbers returns the empty set instead
of failing the run, and the subsequent Kentucky row loop, deduplicating
against that empty set, submits every well-formed scraped row for
creation — deduplication is effectively disabled. -/
theorem c10_dedup_disabled (resp : SFQueryResponse) (h : resp.status ≠ 200) :
    get_existing_solicitation_numbers resp = []
    ∧ ∀ (today : Date) (rows : List KYRow),
        (kentuckyProcessRows today (get_existing_solicitation_numbers resp) rows).map
            (fun o => o.solicitationNumber)
          = (rows.filter kyRowWellFormed).map kentuckyRowKey := by
  have hempty : get_existing_solicitation_numbers resp = [] := by
    unfold get_existing_solicitation_numbers
    rw [if_neg h]
  refine ⟨hempty, ?_⟩
  intro today rows
  rw [hempty, kentuckyCreatedKeys, List.filter_congr (fun r _ => kyRowEligible_nil r)]

/-- C10 (witness): a 401 response (expired credential) yields the empty
fingerprint set, and a page containing a row whose key RFB-300 is in
fact already in the store is nevertheless submitted for creation. -/
theorem c10_dedup_witness :
    get_existing_solicitation_numbers c10Resp = []
    ∧ (kentuckyProcessRows c10Today (get_existing_solicitation_numbers c10Resp)
        c10Rows).map (fun o => o.solicitationNumber) = ["RFB-300"] := by
  have h := c10_dedup_disabled c10Resp (by decide)
  exact ⟨h.1, (h.2 c10Today c10Rows).trans (by decide)⟩

end RFP
